import Mathlib

/-!
Shallow embedding of the classifier logic of the molecular-representations
notebooks, together with proofs of the specified properties.

Numeric conventions of the embedding:
* Python floats that hold bond orders and electronegativities are modelled
  as rationals.
* Python `int(x)` on a float truncates toward zero; it is modelled by
  `ratTrunc`.
* Python `//` on integers is floor division; it is modelled by `Int.fdiv`.
* A Python function that can raise is modelled with `Except String`.
-/

namespace MolRepr

/-- Pauling electronegativity values for common elements, transcribed from
the ELECTRONEGATIVITY dictionary of the bonding notebook. -/
def ELECTRONEGATIVITY : List (String × ℚ) :=
  [("H", 2.20), ("C", 2.55), ("N", 3.04), ("O", 3.44), ("F", 3.98),
   ("P", 2.19), ("S", 2.58), ("Cl", 3.16), ("Br", 2.96), ("I", 2.66),
   ("Na", 0.93), ("K", 0.82), ("Mg", 1.31), ("Ca", 1.00),
   ("Al", 1.61), ("Si", 1.90)]

/-- en_diff from the bonding notebook: the absolute electronegativity
difference of two element symbols, or none when either symbol is missing
from the table (the source catches the dictionary KeyError and returns
None). -/
def en_diff (sym1 sym2 : String) : Option ℚ :=
  match List.lookup sym1 ELECTRONEGATIVITY, List.lookup sym2 ELECTRONEGATIVITY with
  | some x1, some x2 => some |x1 - x2|
  | _, _ => none

/-- classify_bond from the bonding notebook: classify an optional
electronegativity difference into a bond-polarity label. -/
def classify_bond (delta : Option ℚ) : String :=
  match delta with
  | none => "unknown"
  | some d =>
    if d ≥ 1.7 then "ionic"
    else if d ≥ 0.4 then "polar covalent"
    else "non‑polar covalent"

/-- GEOM_MAP from the VSEPR notebook: the fixed
(steric number, lone pairs) to geometry-label table. -/
def GEOM_MAP : List ((Int × Int) × String) :=
  [((2, 0), "linear"),
   ((3, 0), "trigonal planar"),
   ((3, 1), "bent (120°)"),
   ((4, 0), "tetrahedral"),
   ((4, 1), "trigonal pyramidal"),
   ((4, 2), "bent (109°)"),
   ((5, 0), "trigonal bipyramidal"),
   ((5, 1), "seesaw"),
   ((5, 2), "T-shaped"),
   ((5, 3), "linear"),
   ((6, 0), "octahedral"),
   ((6, 1), "square pyramidal"),
   ((6, 2), "square planar")]

/-- geometry_from_counts from the VSEPR notebook: look up the geometry
label for a (steric number, lone pairs) pair, defaulting to "unknown". -/
def geometry_from_counts (steric lps : Int) : String :=
  (List.lookup (steric, lps) GEOM_MAP).getD "unknown"

/-- The atom-level data that steric_and_lps reads from an RDKit atom:
element symbol, formal charge, total degree (sigma-bond count including
attached hydrogens) and the bond orders of the incident bonds. -/
structure Atom where
  symbol : String
  formalCharge : Int
  totalDegree : Nat
  bondOrders : List ℚ
deriving DecidableEq

/-- VE from the VSEPR notebook: valence electron counts for main-group
elements (a table local to steric_and_lps). -/
def VE : List (String × Int) :=
  [("H", 1), ("C", 4), ("N", 5), ("O", 6), ("F", 7), ("P", 5), ("S", 6),
   ("Cl", 7), ("Br", 7), ("I", 7), ("Xe", 8)]

/-- Python int() applied to a rational: truncation toward zero. -/
def ratTrunc (q : ℚ) : Int := Int.tdiv q.num q.den

/-- steric_and_lps from the VSEPR notebook: returns (steric_number,
lone_pairs) for an atom, or raises (here: Except.error) when the element
symbol is missing from the valence-electron table.  lone_pairs is
(ve - formal charge - int(bond order sum)) // 2 with Python semantics:
int() truncates toward zero and // is floor division. -/
def steric_and_lps (atom : Atom) : Except String (Int × Int) :=
  match List.lookup atom.symbol VE with
  | none => .error ("Valence electrons unknown for " ++ atom.symbol)
  | some ve =>
    let sigma : Int := atom.totalDegree
    let bond_order_sum : ℚ := atom.bondOrders.sum
    let lps : Int := Int.fdiv (ve - atom.formalCharge - ratTrunc bond_order_sum) 2
    let steric : Int := sigma + lps
    .ok (steric, lps)

/-- Modelled from the spec: the hybridization mapping of the hybridisation
notebook, whose predict_hybridisation function body is left as a student
exercise in the source (it raises NotImplementedError).  The spec fixes
the mapping 2 to sp, 3 to sp², 4 to sp³, 5 to sp³d, 6 to sp³d², and
"unknown" for every out-of-range steric number. -/
def classify_hybridization (steric : Int) : String :=
  if steric = 2 then "sp"
  else if steric = 3 then "sp²"
  else if steric = 4 then "sp³"
  else if steric = 5 then "sp³d"
  else if steric = 6 then "sp³d²"
  else "unknown"

/-- The lone-pair formula exactly as the spec sentence states it:
round the bond-order sum, subtract, then divide by 2 with integer
division truncating toward zero. -/
def lone_pairs_claimed (ve fc : Int) (bos : ℚ) : Int :=
  Int.tdiv (ve - fc - round bos) 2

/-- The lone-pair formula the source actually computes: truncate the
bond-order sum toward zero (Python int()), subtract, then floor-divide
by 2 (Python //). -/
def lone_pairs_amended (ve fc : Int) (bos : ℚ) : Int :=
  Int.fdiv (ve - fc - ratTrunc bos) 2

/-- The module-level lookup tables the classifier functions read
(the VE table is local to steric_and_lps and rebuilt per call, so it is
not part of the shared state). -/
structure Tables where
  electronegativity : List (String × ℚ)
  geomMap : List ((Int × Int) × String)
deriving DecidableEq

/-- en_diff as a state transformer over the shared tables: the body only
reads the electronegativity table and performs no assignment, so the
state it returns is the state it received. -/
def en_diffS (sym1 sym2 : String) (s : Tables) : Option ℚ × Tables :=
  (match List.lookup sym1 s.electronegativity, List.lookup sym2 s.electronegativity with
   | some x1, some x2 => some |x1 - x2|
   | _, _ => none, s)

/-- classify_bond as a state transformer over the shared tables: the body
reads no table and performs no assignment. -/
def classify_bondS (delta : Option ℚ) (s : Tables) : String × Tables :=
  (classify_bond delta, s)

/-- geometry_from_counts as a state transformer over the shared tables:
the body only reads the geometry table and performs no assignment. -/
def geometry_from_countsS (steric lps : Int) (s : Tables) : String × Tables :=
  ((List.lookup (steric, lps) s.geomMap).getD "unknown", s)

/-- steric_and_lps as a state transformer over the shared tables: its
valence-electron table is a local literal and nothing is assigned, so the
state passes through unchanged. -/
def steric_and_lpsS (atom : Atom) (s : Tables) : Except String (Int × Int) × Tables :=
  (steric_and_lps atom, s)

/-- classify_hybridization as a state transformer over the shared tables:
its mapping is a literal if-chain, it reads no shared table and performs
no assignment. -/
def classify_hybridizationS (steric : Int) (s : Tables) : String × Tables :=
  (classify_hybridization steric, s)

/-- A single symmetric assignment mat[a][b] := v of the dense matrix,
modelled on total functions over indices. -/
def updMat (m : Nat → Nat → ℚ) (i j : Nat) (v : ℚ) : Nat → Nat → ℚ :=
  fun a b => if a = i ∧ b = j then v else m a b

/-- The body of the inner loop of rmsd_matrix: the double assignment
mat[i, j] = mat[j, i] = GetBestRMS(...). -/
def fillPair (rms : Nat → Nat → ℚ) (i : Nat) (mat : Nat → Nat → ℚ) (j : Nat) :
    Nat → Nat → ℚ :=
  updMat (updMat mat i j (rms i j)) j i (rms i j)

/-- The inner loop of rmsd_matrix: for j in range(i+1, n). -/
def fillRow (rms : Nat → Nat → ℚ) (n : Nat) (mat : Nat → Nat → ℚ) (i : Nat) :
    Nat → Nat → ℚ :=
  (List.range' (i + 1) (n - (i + 1))).foldl (fillPair rms i) mat

/-- rmsd_matrix from the conformers notebook, abstracted over the external
RMS alignment routine rms (GetBestRMS on a fixed molecule, applied to the
conformer ids at positions i and j): start from the zero matrix and for
i in range(n), j in range(i+1, n) assign both symmetric entries. -/
def rmsd_matrix (rms : Nat → Nat → ℚ) (n : Nat) : Nat → Nat → ℚ :=
  (List.range n).foldl (fillRow rms n) (fun _ _ => 0)

/-! Helper lemmas shared by the claim theorems. -/

theorem lookup_eq_none_of_ne {α β : Type} [BEq α] [LawfulBEq α]
    (k : α) (m : List (α × β)) (h : ∀ p ∈ m, k ≠ p.1) :
    List.lookup k m = none := by
  induction m with
  | nil => rfl
  | cons p t ih =>
    obtain ⟨a, v⟩ := p
    have hk : (k == a) = false :=
      beq_eq_false_iff_ne.mpr (h (a, v) (List.mem_cons_self _ _))
    simp only [List.lookup, hk]
    exact ih (fun q hq => h q (List.mem_cons_of_mem _ hq))

theorem steric_and_lps_eval (atom : Atom) (ve : Int)
    (h : List.lookup atom.symbol VE = some ve) :
    steric_and_lps atom =
      .ok ((atom.totalDegree : Int) +
             Int.fdiv (ve - atom.formalCharge - ratTrunc atom.bondOrders.sum) 2,
           Int.fdiv (ve - atom.formalCharge - ratTrunc atom.bondOrders.sum) 2) := by
  simp [steric_and_lps, h]

/-- C2: classify_bond classifies a numeric electronegativity difference by
the fixed thresholds, inclusive at the lower bound of each band: at least
1.7 is ionic, at least 0.4 but below 1.7 is polar covalent, below 0.4 is
non-polar covalent; and en_diff produces the absolute difference of the
two tabulated values. -/
theorem classify_bond_thresholds (d : ℚ) (a b : String) (x y : ℚ) :
    (1.7 ≤ d → classify_bond (some d) = "ionic") ∧
    (0.4 ≤ d → d < 1.7 → classify_bond (some d) = "polar covalent") ∧
    (d < 0.4 → classify_bond (some d) = "non‑polar covalent") ∧
    (List.lookup a ELECTRONEGATIVITY = some x →
      List.lookup b ELECTRONEGATIVITY = some y →
      classify_bond (en_diff a b) = classify_bond (some |x - y|)) := by
  refine ⟨?_, ?_, ?_, ?_⟩
  · intro h
    simp only [classify_bond]
    rw [if_pos h]
  · intro h1 h2
    simp only [classify_bond]
    rw [if_neg (not_le.mpr h2), if_pos h1]
  · intro h
    simp only [classify_bond]
    rw [if_neg (not_le.mpr (h.trans (by norm_num))), if_neg (not_le.mpr h)]
  · intro ha hb
    simp [en_diff, ha, hb]

/-- Witness for C2 at the three spec examples: Na and Cl differ by 2.23
(ionic), H and Cl by 0.96 (polar covalent), C and H by 0.35 (non-polar
covalent). -/
theorem classify_bond_thresholds_witness :
    classify_bond (some 2.23) = "ionic" ∧
      classify_bond (some 0.96) = "polar covalent" ∧
      classify_bond (some 0.35) = "non‑polar covalent" ∧
      classify_bond (en_diff "Na" "Cl") = classify_bond (some |0.93 - 3.16|) :=
  ⟨(classify_bond_thresholds 2.23 "Na" "Cl" 0.93 3.16).1 (by norm_num),
   (classify_bond_thresholds 0.96 "Na" "Cl" 0.93 3.16).2.1 (by norm_num) (by norm_num),
   (classify_bond_thresholds 0.35 "Na" "Cl" 0.93 3.16).2.2.1 (by norm_num),
   (classify_bond_thresholds 2.23 "Na" "Cl" 0.93 3.16).2.2.2
     (by simp +decide [ELECTRONEGATIVITY, List.lookup])
     (by simp +decide [ELECTRONEGATIVITY, List.lookup])⟩

/-- C5: for an element symbol absent from the valence-electron table,
steric_and_lps fails explicitly with the "Valence electrons unknown"
error and never returns a profile. -/
theorem steric_and_lps_unsupported (atom : Atom)
    (h : List.lookup atom.symbol VE = none) :
    steric_and_lps atom =
        .error ("Valence electrons unknown for " ++ atom.symbol) ∧
      ∀ p : Int × Int, steric_and_lps atom ≠ .ok p := by
  refine ⟨by simp [steric_and_lps, h], ?_⟩
  intro p hp
  rw [steric_and_lps, h] at hp
  exact Except.noConfusion hp

/-- Witness for C5: the fictitious symbol Xx misses the table and the call
reports the error. -/
theorem steric_and_lps_unsupported_witness :
    steric_and_lps ⟨"Xx", 0, 0, []⟩ =
        .error ("Valence electrons unknown for " ++ "Xx") ∧
      ∀ p : Int × Int, steric_and_lps ⟨"Xx", 0, 0, []⟩ ≠ .ok p :=
  steric_and_lps_unsupported ⟨"Xx", 0, 0, []⟩ (by decide)

/-- C6: when either symbol is absent from the electronegativity table,
en_diff is none and classify_bond returns the distinguished label
"unknown"; no exception arises (the embedding is a total function). -/
theorem classify_bond_polarity_unknown_symbol (a b : String)
    (h : List.lookup a ELECTRONEGATIVITY = none ∨
      List.lookup b ELECTRONEGATIVITY = none) :
    classify_bond (en_diff a b) = "unknown" := by
  rcases h with h | h
  · simp [en_diff, h, classify_bond]
  · cases ha : List.lookup a ELECTRONEGATIVITY <;>
      simp [en_diff, ha, h, classify_bond]

/-- Witness for C6 at the spec example: the unknown symbol Xx paired with
Cl yields "unknown". -/
theorem classify_bond_polarity_unknown_symbol_witness :
    classify_bond (en_diff "Xx" "Cl") = "unknown" :=
  classify_bond_polarity_unknown_symbol "Xx" "Cl" (Or.inl (by decide))

/-- C8: a water-like oxygen (symbol O so that the valence-electron count
is 6, formal charge 0, two sigma bonds, bond orders summing to 2) yields
lone_pairs = 2 and steric_number = 4, and the geometry table maps (4, 2)
to the label bent (109°). -/
theorem water_like_oxygen_profile :
    steric_and_lps ⟨"O", 0, 2, [1, 1]⟩ = .ok (4, 2) ∧
      geometry_from_counts 4 2 = "bent (109°)" := by
  constructor
  · rw [steric_and_lps_eval ⟨"O", 0, 2, [1, 1]⟩ 6 (by decide)]
    norm_num [ratTrunc]
    decide
  · decide

/-- C1: geometry_from_counts returns exactly the tabulated label on each
of the thirteen entries of the fixed geometry table, and the distinguished
label "unknown" on every integer pair outside the table; the embedding is
a total function, so no call raises. -/
theorem geometry_from_counts_table :
    (geometry_from_counts 2 0 = "linear" ∧
     geometry_from_counts 3 0 = "trigonal planar" ∧
     geometry_from_counts 3 1 = "bent (120°)" ∧
     geometry_from_counts 4 0 = "tetrahedral" ∧
     geometry_from_counts 4 1 = "trigonal pyramidal" ∧
     geometry_from_counts 4 2 = "bent (109°)" ∧
     geometry_from_counts 5 0 = "trigonal bipyramidal" ∧
     geometry_from_counts 5 1 = "seesaw" ∧
     geometry_from_counts 5 2 = "T-shaped" ∧
     geometry_from_counts 5 3 = "linear" ∧
     geometry_from_counts 6 0 = "octahedral" ∧
     geometry_from_counts 6 1 = "square pyramidal" ∧
     geometry_from_counts 6 2 = "square planar") ∧
    ∀ s l : Int, (s, l) ∉ GEOM_MAP.map Prod.fst →
      geometry_from_counts s l = "unknown" := by
  constructor
  · decide
  · intro s l h
    rw [geometry_from_counts, lookup_eq_none_of_ne]
    · rfl
    · intro p hp he
      exact h (he ▸ List.mem_map_of_mem Prod.fst hp)

/-- Witness for C1 at the two pairs the spec names as outside the table:
(2, 1) and (7, 0) both classify as "unknown". -/
theorem geometry_from_counts_table_witness :
    geometry_from_counts 2 1 = "unknown" ∧
      geometry_from_counts 7 0 = "unknown" :=
  ⟨geometry_from_counts_table.2 2 1 (by decide),
   geometry_from_counts_table.2 7 0 (by decide)⟩

/-- C4: the hybridization classifier (modelled from the spec, since the
notebook leaves the function body as an exercise) maps 2, 3, 4, 5, 6 to
sp, sp², sp³, sp³d, sp³d² and every other integer to "unknown"; the
embedding is a total function, so no call raises. -/
theorem classify_hybridization_table :
    (classify_hybridization 2 = "sp" ∧
     classify_hybridization 3 = "sp²" ∧
     classify_hybridization 4 = "sp³" ∧
     classify_hybridization 5 = "sp³d" ∧
     classify_hybridization 6 = "sp³d²") ∧
    ∀ s : Int, s ∉ ([2, 3, 4, 5, 6] : List Int) →
      classify_hybridization s = "unknown" := by
  constructor
  · exact ⟨rfl, rfl, rfl, rfl, rfl⟩
  · intro s h
    simp only [List.mem_cons, List.not_mem_nil, or_false, not_or] at h
    obtain ⟨h2, h3, h4, h5, h6⟩ := h
    simp [classify_hybridization, h2, h3, h4, h5, h6]

/-- Witness for C4 at the spec example: steric number 1 is out of range
and classifies as "unknown". -/
theorem classify_hybridization_table_witness :
    classify_hybridization 1 = "unknown" :=
  classify_hybridization_table.2 1 (by decide)

/-- C3 counterexample: for a chlorine-like atom (7 valence electrons,
formal charge 0, one sigma bond) whose single bond order is 1.5, the
source computes lone_pairs = 3 (int() truncates 1.5 to 1, then
(7 - 1) // 2 = 3), while the claimed formula rounds 1.5 to 2 and gives
(7 - 2) / 2 truncated toward zero, that is 2. -/
theorem steric_and_lps_formula_counterexample :
    steric_and_lps ⟨"Cl", 0, 1, [3/2]⟩ = .ok (4, 3) ∧
      lone_pairs_claimed 7 0 (3/2) = 2 ∧ (3 : Int) ≠ 2 := by
  refine ⟨?_, ?_, by decide⟩
  · rw [steric_and_lps_eval ⟨"Cl", 0, 1, [3/2]⟩ 7 (by decide)]
    norm_num [ratTrunc]
    decide
  · rw [lone_pairs_claimed]
    norm_num [round_eq]
    decide

/-- C3 amended: steric_and_lps computes lone_pairs by truncating the
bond-order sum toward zero with int() and then floor-dividing by 2 with
Python //, and steric_number = sigma_bonds + lone_pairs. -/
theorem steric_and_lps_formula (atom : Atom) (ve : Int)
    (h : List.lookup atom.symbol VE = some ve) :
    steric_and_lps atom =
      .ok ((atom.totalDegree : Int) +
             lone_pairs_amended ve atom.formalCharge atom.bondOrders.sum,
           lone_pairs_amended ve atom.formalCharge atom.bondOrders.sum) := by
  rw [steric_and_lps_eval atom ve h]
  rfl

/-- Witness for C3 (amended) on the water-like oxygen. -/
theorem steric_and_lps_formula_witness :
    steric_and_lps ⟨"O", 0, 2, [1, 1]⟩ =
      .ok ((2 : Int) + lone_pairs_amended 6 0 (([1, 1] : List ℚ).sum),
           lone_pairs_amended 6 0 (([1, 1] : List ℚ).sum)) :=
  steric_and_lps_formula ⟨"O", 0, 2, [1, 1]⟩ 6 (by decide)

/-- C7 counterexample: a hydrogen-like atom (1 valence electron, formal
charge 0, one sigma bond) carrying a double bond makes the arithmetic
negative, and steric_and_lps returns the profile (0, -1) with a negative
lone-pair count instead of signalling an input error. -/
theorem steric_and_lps_negative_counterexample :
    steric_and_lps ⟨"H", 0, 1, [2]⟩ = .ok (0, -1) ∧ (-1 : Int) < 0 := by
  refine ⟨?_, by decide⟩
  rw [steric_and_lps_eval ⟨"H", 0, 1, [2]⟩ 1 (by decide)]
  norm_num [ratTrunc]
  decide

/-- C7 amended: steric_and_lps has no guard: whenever the element symbol
is supported it returns a profile, even when the lone-pair count is
negative; a negative lone-pair count then misses the geometry table, so
geometry_from_counts reports "unknown" on it. -/
theorem steric_and_lps_negative_propagates (atom : Atom) (ve : Int)
    (h : List.lookup atom.symbol VE = some ve) :
    (∃ p : Int × Int, steric_and_lps atom = .ok p) ∧
      ∀ s l : Int, l < 0 → geometry_from_counts s l = "unknown" := by
  constructor
  · exact ⟨_, steric_and_lps_eval atom ve h⟩
  · intro s l hl
    rw [geometry_from_counts, lookup_eq_none_of_ne]
    · rfl
    · intro p hp he
      fin_cases hp <;>
        · simp only [Prod.mk.injEq] at he
          omega

/-- Witness for C7 (amended): the hydrogen-like atom with a double bond
gets a profile back, and the pair (4, -1) classifies as "unknown". -/
theorem steric_and_lps_negative_propagates_witness :
    (∃ p : Int × Int, steric_and_lps ⟨"H", 0, 1, [2]⟩ = .ok p) ∧
      geometry_from_counts 4 (-1) = "unknown" :=
  ⟨(steric_and_lps_negative_propagates ⟨"H", 0, 1, [2]⟩ 1 (by decide)).1,
   (steric_and_lps_negative_propagates ⟨"H", 0, 1, [2]⟩ 1 (by decide)).2
     4 (-1) (by decide)⟩

/-- C9: the classifier operations (the geometry lookup, the hybridization
mapping, the steric-profile derivation, and the bond-polarity pipeline of
en_diff and classify_bond), embedded as state transformers over the shared
lookup tables, are pure: each call returns the state it received
unchanged, and a repeated call with identical inputs (run from the state
the first call returned) yields the same output as the first. -/
theorem classifiers_pure_deterministic (s : Tables) (a b : String)
    (delta : Option ℚ) (st l hyb : Int) (atom : Atom) :
    ((en_diffS a b s).2 = s ∧
     (classify_bondS delta s).2 = s ∧
     (geometry_from_countsS st l s).2 = s ∧
     (classify_hybridizationS hyb s).2 = s ∧
     (steric_and_lpsS atom s).2 = s) ∧
    ((en_diffS a b ((en_diffS a b s).2)).1 = (en_diffS a b s).1 ∧
     (classify_bondS delta ((classify_bondS delta s).2)).1 =
       (classify_bondS delta s).1 ∧
     (geometry_from_countsS st l ((geometry_from_countsS st l s).2)).1 =
       (geometry_from_countsS st l s).1 ∧
     (classify_hybridizationS hyb ((classify_hybridizationS hyb s).2)).1 =
       (classify_hybridizationS hyb s).1 ∧
     (steric_and_lpsS atom ((steric_and_lpsS atom s).2)).1 =
       (steric_and_lpsS atom s).1) :=
  ⟨⟨rfl, rfl, rfl, rfl, rfl⟩, ⟨rfl, rfl, rfl, rfl, rfl⟩⟩

theorem fillPair_symm_diag (rms : Nat → Nat → ℚ) (i j : Nat)
    (mat : Nat → Nat → ℚ) (hij : i ≠ j)
    (hsym : ∀ a b, mat a b = mat b a) (hdiag : ∀ k, mat k k = 0) :
    (∀ a b, fillPair rms i mat j a b = fillPair rms i mat j b a) ∧
      ∀ k, fillPair rms i mat j k k = 0 := by
  constructor
  · intro a b
    simp only [fillPair, updMat]
    split_ifs <;> first | rfl | (exfalso; omega) | exact hsym a b
  · intro k
    simp only [fillPair, updMat]
    split_ifs <;> first | (exfalso; omega) | exact hdiag k

theorem foldl_fillPair_symm_diag (rms : Nat → Nat → ℚ) (i : Nat)
    (l : List Nat) (hl : ∀ j ∈ l, i ≠ j) (mat : Nat → Nat → ℚ)
    (hsym : ∀ a b, mat a b = mat b a) (hdiag : ∀ k, mat k k = 0) :
    (∀ a b, l.foldl (fillPair rms i) mat a b =
        l.foldl (fillPair rms i) mat b a) ∧
      ∀ k, l.foldl (fillPair rms i) mat k k = 0 := by
  induction l generalizing mat with
  | nil => exact ⟨hsym, hdiag⟩
  | cons j t ih =>
    have hij : i ≠ j := hl j (List.mem_cons_self _ _)
    have h1 := fillPair_symm_diag rms i j mat hij hsym hdiag
    simp only [List.foldl_cons]
    exact ih (fun q hq => hl q (List.mem_cons_of_mem _ hq))
      (fillPair rms i mat j) h1.1 h1.2

theorem fillRow_symm_diag (rms : Nat → Nat → ℚ) (n i : Nat)
    (mat : Nat → Nat → ℚ) (hsym : ∀ a b, mat a b = mat b a)
    (hdiag : ∀ k, mat k k = 0) :
    (∀ a b, fillRow rms n mat i a b = fillRow rms n mat i b a) ∧
      ∀ k, fillRow rms n mat i k k = 0 := by
  refine foldl_fillPair_symm_diag rms i _ ?_ mat hsym hdiag
  intro j hj
  have := (List.mem_range'_1.mp hj).1
  omega

theorem foldl_fillRow_symm_diag (rms : Nat → Nat → ℚ) (n : Nat)
    (l : List Nat) (mat : Nat → Nat → ℚ)
    (hsym : ∀ a b, mat a b = mat b a) (hdiag : ∀ k, mat k k = 0) :
    (∀ a b, l.foldl (fillRow rms n) mat a b =
        l.foldl (fillRow rms n) mat b a) ∧
      ∀ k, l.foldl (fillRow rms n) mat k k = 0 := by
  induction l generalizing mat with
  | nil => exact ⟨hsym, hdiag⟩
  | cons i t ih =>
    have h1 := fillRow_symm_diag rms n i mat hsym hdiag
    simp only [List.foldl_cons]
    exact ih (fillRow rms n mat i) h1.1 h1.2

/-- C10: for every external RMS alignment routine and every conformer
count, the matrix built by rmsd_matrix is symmetric (the (i, j) entry
equals the (j, i) entry) and every diagonal entry is zero. -/
theorem rmsd_matrix_symm_zero_diag (rms : Nat → Nat → ℚ) (n i j k : Nat) :
    rmsd_matrix rms n i j = rmsd_matrix rms n j i ∧
      rmsd_matrix rms n k k = 0 := by
  simp only [rmsd_matrix]
  have h := foldl_fillRow_symm_diag rms n (List.range n) (fun _ _ => 0)
    (fun _ _ => rfl) (fun _ => rfl)
  exact ⟨h.1 i j, h.2 k⟩

end MolRepr
